import Mathlib

/-!
Shallow embedding of `src/bot.py`, a Telegram chat-bot relay.

The handlers of `bot.py` are modelled as pure functions over an explicit
session store (the Python module-level `user_context` dictionary).
External effects are modelled as explicit parameters:
  * timestamps (`datetime.now()`) are naturals counting seconds and are
    passed in as a `now` argument;
  * the OpenAI streaming completion (`client.chat.completions.create`
    together with the chunk loop) is a `StreamOutcome`: either the list of
    non-empty chunk contents that arrive, or a failure raised anywhere in
    the `try` block before the history appends;
  * downloading a document and extracting its text with PyMuPDF, or
    downloading a photo and base64-encoding it, is a `FetchResult`: the
    resulting string, or a failure raised inside the `try` block;
  * outbound `reply_text` calls of translated notices are collected in a
    `replies` list (the `"..."` streaming placeholder message, its
    incremental edits and the typing chat action carry no session state
    and are not tracked).
Python strings are Lean `String`s; `s[:n]` slicing is `strTake`, which
takes the first `n` code points.
-/

namespace TelegramBot

/-- `MAX_PDF_SIZE = 15 * 1024 * 1024` bytes (`bot.py` line 37). -/
def MAX_PDF_SIZE : Nat := 15 * 1024 * 1024

/-- `MAX_IMAGE_SIZE = 10 * 1024 * 1024` bytes (`bot.py` line 38). -/
def MAX_IMAGE_SIZE : Nat := 10 * 1024 * 1024

/-- `CONTEXT_TIMEOUT_MINUTES = 10` (`bot.py` line 39). -/
def CONTEXT_TIMEOUT_MINUTES : Nat := 10

/-- The idle threshold `timedelta(minutes=CONTEXT_TIMEOUT_MINUTES)` in
seconds, matching the second-granularity time model. -/
def CONTEXT_TIMEOUT_SECONDS : Nat := 60 * CONTEXT_TIMEOUT_MINUTES

/-- Python string slicing `s[:n]`: the first `n` code points of `s`. -/
def strTake (s : String) (n : Nat) : String := String.mk (s.data.take n)

/-- The `"en"` entry of the `translations` dictionary built inside
`get_translation` (`bot.py` lines 51-70).  The two f-strings render their
interpolated size limits as `15.0` and `10.0` (Python float division). -/
def en_table : List (String × String) :=
  [("welcome", "Welcome! I\x27m an AI assistant. I can help you with text, images, and PDFs. How can I assist you?"),
   ("help", "Here\x27s what I can do:\n\n- *Text Messages*: Chat with me in any language.\n- *Image Uploads*: Send an image, and I\x27ll analyze it.\n- *PDF Uploads*: Send a PDF, and I\x27ll answer questions about it.\n\nUse /reset to clear our conversation history."),
   ("reset", "Our conversation history has been cleared."),
   ("pdf_received", "Thank you for the PDF. I\x27m processing it now. Please ask me a question about its content."),
   ("pdf_too_large", "The PDF file is too large. Please send a file smaller than 15.0 MB."),
   ("image_too_large", "The image file is too large. Please send a file smaller than 10.0 MB."),
   ("unsupported_file", "Sorry, I only support PDF and image files."),
   ("error_processing", "Sorry, I encountered an error while processing your request. Please try again."),
   ("thinking", "Thinking..."),
   ("image_received", "I\x27ve received your image. What would you like to know about it?")]

/-- The `translations` dictionary: it has the single key `"en"`. -/
def translations : List (String × List (String × String)) := [("en", en_table)]

/-- `get_translation(lang, key)` (`bot.py` lines 50-71):
`translations.get(lang, translations["en"]).get(key, "")`. -/
def get_translation (lang key : String) : String :=
  (((translations.lookup lang).getD en_table).lookup key).getD ""

/-- `get_user_language` (`bot.py` lines 44-47): the sender's declared
`language_code or "en"` (Python `or`: `None` and `""` both fall back). -/
def get_user_language (language_code : Option String) : String :=
  match language_code with
  | some s => if s != "" then s else "en"
  | none => "en"

/-- One element of a multimodal `content` list (`bot.py` lines 131-134). -/
inductive ContentPart where
  | textPart (text : String)
  | imageUrlPart (url : String)
deriving DecidableEq

/-- The `content` field of a chat message: either a plain string or a
multimodal part list. -/
inductive Content where
  | str (s : String)
  | parts (ps : List ContentPart)
deriving DecidableEq

/-- One `{"role": ..., "content": ...}` dictionary. -/
structure ChatMessage where
  role : String
  content : Content
deriving DecidableEq

/-- One value of the `user_context` dictionary (`bot.py` lines 76-81). -/
structure Session where
  history : List ChatMessage
  last_seen : Nat
  pdf_text : Option String
  image_data : Option String
deriving DecidableEq

/-- The module-level `user_context` dictionary, keyed by Telegram user id. -/
def Store : Type := Nat → Option Session

/-- `user_context[uid] = s`. -/
def Store.set (st : Store) (uid : Nat) (s : Session) : Store :=
  fun v => if v = uid then some s else st v

/-- `user_context = {}` at process start (`bot.py` line 41). -/
def initStore : Store := fun _ => none

/-- The fresh session value written by `start_command`, `reset_command`
and the lazy-creation branches. -/
def freshSession (now : Nat) : Session :=
  { history := [], last_seen := now, pdf_text := none, image_data := none }

/-- Python truthiness of the optional string fields `pdf_text` and
`image_data`: `None` and `""` are falsy. -/
def truthy : Option String → Bool
  | none => false
  | some s => s != ""

/-- Outcome of the streaming completion call together with the chunk loop:
on success, the list of non-empty `delta.content` fragments (so
`full_response` is their concatenation); `fail` stands for an exception
raised anywhere in the `try` block of `handle_text_message` before the
two history appends. -/
inductive StreamOutcome where
  | ok (chunks : List String)
  | fail
deriving DecidableEq

/-- Outcome of download-plus-decode inside a document or photo handler
`try` block: the extracted PDF text (document) or the base64 payload
(photo), or an exception. -/
inductive FetchResult where
  | ok (payload : String)
  | fail
deriving DecidableEq

/-- `start_command` (`bot.py` lines 74-83): replace the session with a
fresh one and send the welcome text. -/
def start_command (st : Store) (uid : Nat) (lang : String) (now : Nat) :
    Store × List String :=
  (st.set uid (freshSession now), [get_translation lang "welcome"])

/-- `help_command` (`bot.py` lines 86-90): send the help text, no state
mutation. -/
def help_command (lang : String) : List String :=
  [get_translation lang "help"]

/-- `reset_command` (`bot.py` lines 93-103): replace the session with a
fresh one, but only if the user already has one; always send the reset
confirmation. -/
def reset_command (st : Store) (uid : Nat) (lang : String) (now : Nat) :
    Store × List String :=
  (if (st uid).isSome then st.set uid (freshSession now) else st,
   [get_translation lang "reset"])

/-- Lines 110-120 of `handle_text_message`: idle-timeout check (calling
`reset_command` when stale), lazy session creation, and the `last_seen`
update.  Returns the adjusted store and the replies sent so far. -/
def text_pre (st : Store) (uid : Nat) (lang : String) (now : Nat) :
    Store × List String :=
  let p :=
    match st uid with
    | some s =>
      if now - s.last_seen > CONTEXT_TIMEOUT_SECONDS then
        reset_command st uid lang now
      else (st, ([] : List String))
    | none => (st, ([] : List String))
  let st2 := if (p.1 uid).isNone then p.1.set uid (freshSession now) else p.1
  let st3 :=
    match st2 uid with
    | some s => st2.set uid { s with last_seen := now }
    | none => st2
  (st3, p.2)

/-- Result of one run of `handle_text_message`: the store after the
handler, the `messages` list submitted to the completion API, and the
translated notices sent with `reply_text`. -/
structure TextResult where
  store : Store
  messages : List ChatMessage
  replies : List String

/-- Lines 122-167 of `handle_text_message`: prompt assembly (image branch
consuming the attachment, PDF branch embedding the first 4000 characters,
plain branch), then the streamed completion; on success the user and
assistant turns are appended to `history`, on failure the generic
`error_processing` notice is sent and `history` is untouched. -/
def text_core (st0 : Store) (preReplies : List String) (uid : Nat)
    (lang prompt : String) (now : Nat) (stream : StreamOutcome) : TextResult :=
  let s := (st0 uid).getD (freshSession now)
  let base : List ChatMessage :=
    { role := "system", content := Content.str "You are a helpful assistant." }
      :: s.history
  let br :=
    if truthy s.image_data then
      (base ++ [{ role := "user",
                  content := Content.parts
                    [ContentPart.textPart prompt,
                     ContentPart.imageUrlPart
                       ("data:image/jpeg;base64," ++ s.image_data.getD "")] }],
       { s with image_data := none })
    else if truthy s.pdf_text then
      (base ++ [{ role := "system",
                  content := Content.str
                    ("Use the following content from a PDF to answer: " ++
                      strTake (s.pdf_text.getD "") 4000) },
                { role := "user", content := Content.str prompt }], s)
    else
      (base ++ [{ role := "user", content := Content.str prompt }], s)
  match stream with
  | StreamOutcome.ok chunks =>
    let full_response := String.join chunks
    { store := st0.set uid
        { br.2 with history := br.2.history ++
            [{ role := "user", content := Content.str prompt },
             { role := "assistant", content := Content.str full_response }] },
      messages := br.1, replies := preReplies }
  | StreamOutcome.fail =>
    { store := st0.set uid br.2, messages := br.1,
      replies := preReplies ++ [get_translation lang "error_processing"] }

/-- `handle_text_message` (`bot.py` lines 106-167). -/
def handle_text_message (st : Store) (uid : Nat) (lang prompt : String)
    (now : Nat) (stream : StreamOutcome) : TextResult :=
  let p := text_pre st uid lang now
  text_core p.1 p.2 uid lang prompt now stream

/-- `handle_document_message` (`bot.py` lines 170-197): reject non-PDF
MIME types, then oversized files; otherwise download and extract the
text, lazily create the session, store `pdf_text` and clear
`image_data`. -/
def handle_document_message (st : Store) (uid : Nat) (lang mime : String)
    (file_size : Nat) (fetch : FetchResult) (now : Nat) : Store × List String :=
  if mime != "application/pdf" then
    (st, [get_translation lang "unsupported_file"])
  else if file_size > MAX_PDF_SIZE then
    (st, [get_translation lang "pdf_too_large"])
  else
    match fetch with
    | FetchResult.ok pdf_text =>
      let st1 := if (st uid).isNone then st.set uid (freshSession now) else st
      let s := (st1 uid).getD (freshSession now)
      (st1.set uid { s with pdf_text := some pdf_text, image_data := none },
       [get_translation lang "pdf_received"])
    | FetchResult.fail => (st, [get_translation lang "error_processing"])

/-- `handle_photo_message` (`bot.py` lines 200-220): reject oversized
photos; otherwise download and base64-encode, lazily create the session,
store `image_data` and clear `pdf_text`. -/
def handle_photo_message (st : Store) (uid : Nat) (lang : String)
    (file_size : Nat) (fetch : FetchResult) (now : Nat) : Store × List String :=
  if file_size > MAX_IMAGE_SIZE then
    (st, [get_translation lang "image_too_large"])
  else
    match fetch with
    | FetchResult.ok image_base64 =>
      let st1 := if (st uid).isNone then st.set uid (freshSession now) else st
      let s := (st1 uid).getD (freshSession now)
      (st1.set uid { s with image_data := some image_base64, pdf_text := none },
       [get_translation lang "image_received"])
    | FetchResult.fail => (st, [get_translation lang "error_processing"])

/-- One inbound event, with its external outcomes made explicit. -/
inductive Op where
  | start (uid : Nat) (lang : String) (now : Nat)
  | help (lang : String)
  | reset (uid : Nat) (lang : String) (now : Nat)
  | text (uid : Nat) (lang prompt : String) (now : Nat) (stream : StreamOutcome)
  | document (uid : Nat) (lang mime : String) (file_size : Nat)
      (fetch : FetchResult) (now : Nat)
  | photo (uid : Nat) (lang : String) (file_size : Nat)
      (fetch : FetchResult) (now : Nat)

/-- Effect of one inbound event on the session store. -/
def step (st : Store) : Op → Store
  | Op.start uid lang now => (start_command st uid lang now).1
  | Op.help _ => st
  | Op.reset uid lang now => (reset_command st uid lang now).1
  | Op.text uid lang prompt now stream =>
      (handle_text_message st uid lang prompt now stream).store
  | Op.document uid lang mime file_size fetch now =>
      (handle_document_message st uid lang mime file_size fetch now).1
  | Op.photo uid lang file_size fetch now =>
      (handle_photo_message st uid lang file_size fetch now).1

/-- The store after a sequence of inbound events from process start. -/
def run (ops : List Op) : Store := ops.foldl step initStore

/-- The pending-attachment fields are mutually exclusive: at most one of
the PDF text and the image payload is present. -/
def exclusiveAttachment (s : Session) : Prop :=
  s.pdf_text = none ∨ s.image_data = none

/-- Every session in the store has mutually exclusive attachments. -/
def StoreInv (st : Store) : Prop :=
  ∀ uid s, st uid = some s → exclusiveAttachment s

/-- Number of image parts in one message content. -/
def Content.imageCount : Content → Nat
  | Content.str _ => 0
  | Content.parts ps =>
      (ps.filter fun p =>
        match p with
        | ContentPart.imageUrlPart _ => true
        | ContentPart.textPart _ => false).length

/-- Total number of inline images in a prompt. -/
def imageCountList (ms : List ChatMessage) : Nat :=
  (ms.map fun m => Content.imageCount m.content).sum

/-! ### Basic store lemmas -/

theorem store_set_self (st : Store) (uid : Nat) (s : Session) :
    st.set uid s uid = some s := by
  simp [Store.set]

theorem store_set_other (st : Store) (uid v : Nat) (s : Session) (h : v ≠ uid) :
    st.set uid s v = st v := by
  simp [Store.set, h]

/-! ### Characterization of the pre-turn adjustment (`text_pre`) -/

theorem text_pre_eq_absent (st : Store) (uid : Nat) (lang : String) (now : Nat)
    (h : st uid = none) :
    text_pre st uid lang now =
      ((st.set uid (freshSession now)).set uid (freshSession now), []) := by
  unfold text_pre
  simp [h, store_set_self, freshSession]

theorem text_pre_eq_stale (st : Store) (uid : Nat) (lang : String) (now : Nat)
    (s : Session) (h : st uid = some s)
    (hs : now - s.last_seen > CONTEXT_TIMEOUT_SECONDS) :
    text_pre st uid lang now =
      ((st.set uid (freshSession now)).set uid (freshSession now),
       [get_translation lang "reset"]) := by
  unfold text_pre reset_command
  simp [h, hs, store_set_self, freshSession]

theorem text_pre_eq_live (st : Store) (uid : Nat) (lang : String) (now : Nat)
    (s : Session) (h : st uid = some s)
    (hs : ¬ now - s.last_seen > CONTEXT_TIMEOUT_SECONDS) :
    text_pre st uid lang now = (st.set uid { s with last_seen := now }, []) := by
  unfold text_pre
  simp [h, hs, store_set_self]

theorem text_pre_last_seen (st : Store) (uid : Nat) (lang : String) (now : Nat) :
    Option.map Session.last_seen ((text_pre st uid lang now).1 uid) = some now := by
  rcases h : st uid with _ | s
  · rw [text_pre_eq_absent st uid lang now h]
    simp [store_set_self, freshSession]
  · by_cases hs : now - s.last_seen > CONTEXT_TIMEOUT_SECONDS
    · rw [text_pre_eq_stale st uid lang now s h hs]
      simp [store_set_self, freshSession]
    · rw [text_pre_eq_live st uid lang now s h hs]
      simp [store_set_self]

/-! ### Attachment-exclusivity invariant machinery -/

theorem storeInv_set (st : Store) (uid : Nat) (s : Session)
    (h : StoreInv st) (hs : exclusiveAttachment s) : StoreInv (st.set uid s) := by
  intro v t hv
  by_cases e : v = uid
  · subst e
    rw [store_set_self] at hv
    cases hv
    exact hs
  · rw [store_set_other st uid v s e] at hv
    exact h v t hv

theorem exclusive_fresh (now : Nat) : exclusiveAttachment (freshSession now) :=
  Or.inl rfl

theorem storeInv_init : StoreInv initStore := by
  intro uid s h
  cases h

theorem text_pre_inv (st : Store) (uid : Nat) (lang : String) (now : Nat)
    (h : StoreInv st) : StoreInv (text_pre st uid lang now).1 := by
  rcases hu : st uid with _ | s
  · rw [text_pre_eq_absent st uid lang now hu]
    exact storeInv_set _ _ _ (storeInv_set _ _ _ h (exclusive_fresh now)) (exclusive_fresh now)
  · by_cases hs : now - s.last_seen > CONTEXT_TIMEOUT_SECONDS
    · rw [text_pre_eq_stale st uid lang now s hu hs]
      exact storeInv_set _ _ _ (storeInv_set _ _ _ h (exclusive_fresh now)) (exclusive_fresh now)
    · rw [text_pre_eq_live st uid lang now s hu hs]
      refine storeInv_set _ _ _ h ?_
      have := h uid s hu
      rcases this with h1 | h1
      · exact Or.inl h1
      · exact Or.inr h1

theorem handle_text_inv (st : Store) (uid : Nat) (lang prompt : String)
    (now : Nat) (stream : StreamOutcome) (h : StoreInv st) :
    StoreInv (handle_text_message st uid lang prompt now stream).store := by
  have h0 : StoreInv (text_pre st uid lang now).1 := text_pre_inv st uid lang now h
  have hs : exclusiveAttachment
      (((text_pre st uid lang now).1 uid).getD (freshSession now)) := by
    rcases hu : (text_pre st uid lang now).1 uid with _ | t
    · exact exclusive_fresh now
    · simpa using h0 uid t hu
  unfold handle_text_message text_core
  by_cases t1 : truthy (((text_pre st uid lang now).1 uid).getD (freshSession now)).image_data <;>
    by_cases t2 : truthy (((text_pre st uid lang now).1 uid).getD (freshSession now)).pdf_text <;>
    rcases stream with chunks | _ <;>
    simp only [t1, t2, if_true, if_false] <;>
    refine storeInv_set _ _ _ h0 ?_ <;>
    rcases hs with h1 | h1 <;>
    simp [exclusiveAttachment, h1]

theorem handle_document_inv (st : Store) (uid : Nat) (lang mime : String)
    (file_size : Nat) (fetch : FetchResult) (now : Nat) (h : StoreInv st) :
    StoreInv (handle_document_message st uid lang mime file_size fetch now).1 := by
  unfold handle_document_message
  by_cases hm : mime != "application/pdf"
  · simpa [hm] using h
  · by_cases hsz : file_size > MAX_PDF_SIZE
    · simpa [hm, hsz] using h
    · rcases fetch with payload | _
      · have h1 : StoreInv (if (st uid).isNone then st.set uid (freshSession now) else st) := by
          by_cases hn : (st uid).isNone
          · simpa [hn] using storeInv_set _ _ _ h (exclusive_fresh now)
          · simpa [hn] using h
        simp only [if_neg hm, if_neg hsz]
        exact storeInv_set _ _ _ h1 (Or.inr rfl)
      · simpa [hm, hsz] using h

theorem handle_photo_inv (st : Store) (uid : Nat) (lang : String)
    (file_size : Nat) (fetch : FetchResult) (now : Nat) (h : StoreInv st) :
    StoreInv (handle_photo_message st uid lang file_size fetch now).1 := by
  unfold handle_photo_message
  by_cases hsz : file_size > MAX_IMAGE_SIZE
  · simpa [hsz] using h
  · rcases fetch with payload | _
    · have h1 : StoreInv (if (st uid).isNone then st.set uid (freshSession now) else st) := by
        by_cases hn : (st uid).isNone
        · simpa [hn] using storeInv_set _ _ _ h (exclusive_fresh now)
        · simpa [hn] using h
      simp only [if_neg hsz]
      exact storeInv_set _ _ _ h1 (Or.inl rfl)
    · simpa [hsz] using h

theorem step_inv (st : Store) (op : Op) (h : StoreInv st) : StoreInv (step st op) := by
  rcases op with ⟨uid, lang, now⟩ | lang | ⟨uid, lang, now⟩
    | ⟨uid, lang, prompt, now, stream⟩ | ⟨uid, lang, mime, file_size, fetch, now⟩
    | ⟨uid, lang, file_size, fetch, now⟩
  · exact storeInv_set _ _ _ h (exclusive_fresh now)
  · exact h
  · unfold step reset_command
    by_cases hn : (st uid).isSome
    · simpa [hn] using storeInv_set _ _ _ h (exclusive_fresh now)
    · simpa [hn] using h
  · exact handle_text_inv st uid lang prompt now stream h
  · exact handle_document_inv st uid lang mime file_size fetch now h
  · exact handle_photo_inv st uid lang file_size fetch now h

theorem run_inv (ops : List Op) : StoreInv (run ops) := by
  have h : ∀ st, StoreInv st → StoreInv (ops.foldl step st) := by
    induction ops with
    | nil => exact fun st h => h
    | cons op ops ih => exact fun st h => ih _ (step_inv st op h)
  exact h initStore storeInv_init

/-! ### Branch characterizations of the text handler

In each lemma `s` is the session read by the handler body, i.e. the value
of `user_context[uid]` after the idle-timeout / lazy-creation / `last_seen`
preamble (`text_pre`). -/

theorem text_message_image_spec (st : Store) (uid : Nat) (lang prompt : String)
    (now : Nat) (chunks : List String) (s : Session) (img : String)
    (h : (text_pre st uid lang now).1 uid = some s)
    (himg : s.image_data = some img) (hne : img ≠ "") :
    (∀ stream, (handle_text_message st uid lang prompt now stream).messages =
      ({ role := "system", content := Content.str "You are a helpful assistant." }
          :: s.history) ++
        [{ role := "user", content := Content.parts
            [ContentPart.textPart prompt,
             ContentPart.imageUrlPart ("data:image/jpeg;base64," ++ img)] }]) ∧
    (handle_text_message st uid lang prompt now (StreamOutcome.ok chunks)).store uid =
      some { s with image_data := none,
                    history := s.history ++
                      [{ role := "user", content := Content.str prompt },
                       { role := "assistant",
                         content := Content.str (String.join chunks) }] } ∧
    (handle_text_message st uid lang prompt now StreamOutcome.fail).store uid =
      some { s with image_data := none } := by
  have ht : truthy (some img) = true := by simp [truthy, hne]
  refine ⟨fun stream => ?_, ?_, ?_⟩
  · unfold handle_text_message text_core
    rcases stream with c | _ <;> simp [h, ht, himg]
  · unfold handle_text_message text_core
    simp [h, ht, himg, store_set_self]
  · unfold handle_text_message text_core
    simp [h, ht, himg, store_set_self]

theorem text_message_pdf_spec (st : Store) (uid : Nat) (lang prompt : String)
    (now : Nat) (chunks : List String) (s : Session) (pdf : String)
    (h : (text_pre st uid lang now).1 uid = some s)
    (himg : truthy s.image_data = false)
    (hpdf : s.pdf_text = some pdf) (hne : pdf ≠ "") :
    (∀ stream, (handle_text_message st uid lang prompt now stream).messages =
      ({ role := "system", content := Content.str "You are a helpful assistant." }
          :: s.history) ++
        [{ role := "system", content := Content.str
            ("Use the following content from a PDF to answer: " ++ strTake pdf 4000) },
         { role := "user", content := Content.str prompt }]) ∧
    (handle_text_message st uid lang prompt now (StreamOutcome.ok chunks)).store uid =
      some { s with history := s.history ++
          [{ role := "user", content := Content.str prompt },
           { role := "assistant", content := Content.str (String.join chunks) }] } ∧
    (handle_text_message st uid lang prompt now StreamOutcome.fail).store uid =
      some s := by
  have ht : truthy (some pdf) = true := by simp [truthy, hne]
  refine ⟨fun stream => ?_, ?_, ?_⟩
  · unfold handle_text_message text_core
    rcases stream with c | _ <;> simp [h, ht, himg, hpdf]
  · unfold handle_text_message text_core
    simp [h, ht, himg, hpdf, store_set_self]
  · unfold handle_text_message text_core
    simp [h, ht, himg, hpdf, store_set_self]

theorem text_message_plain_spec (st : Store) (uid : Nat) (lang prompt : String)
    (now : Nat) (chunks : List String) (s : Session)
    (h : (text_pre st uid lang now).1 uid = some s)
    (himg : truthy s.image_data = false)
    (hpdf : truthy s.pdf_text = false) :
    (∀ stream, (handle_text_message st uid lang prompt now stream).messages =
      ({ role := "system", content := Content.str "You are a helpful assistant." }
          :: s.history) ++
        [{ role := "user", content := Content.str prompt }]) ∧
    (handle_text_message st uid lang prompt now (StreamOutcome.ok chunks)).store uid =
      some { s with history := s.history ++
          [{ role := "user", content := Content.str prompt },
           { role := "assistant", content := Content.str (String.join chunks) }] } ∧
    (handle_text_message st uid lang prompt now StreamOutcome.fail).store uid =
      some s := by
  refine ⟨fun stream => ?_, ?_, ?_⟩
  · unfold handle_text_message text_core
    rcases stream with c | _ <;> simp [h, himg, hpdf]
  · unfold handle_text_message text_core
    simp [h, himg, hpdf, store_set_self]
  · unfold handle_text_message text_core
    simp [h, himg, hpdf, store_set_self]

theorem text_message_history_ok (st : Store) (uid : Nat) (lang prompt : String)
    (now : Nat) (chunks : List String) (s1 : Session)
    (h : (text_pre st uid lang now).1 uid = some s1) :
    Option.map Session.history
      ((handle_text_message st uid lang prompt now (StreamOutcome.ok chunks)).store uid) =
      some (s1.history ++
        [{ role := "user", content := Content.str prompt },
         { role := "assistant", content := Content.str (String.join chunks) }]) := by
  unfold handle_text_message text_core
  by_cases t1 : truthy s1.image_data <;> by_cases t2 : truthy s1.pdf_text <;>
    simp [h, t1, t2, store_set_self]

theorem text_message_history_fail (st : Store) (uid : Nat) (lang prompt : String)
    (now : Nat) (s1 : Session)
    (h : (text_pre st uid lang now).1 uid = some s1) :
    Option.map Session.history
      ((handle_text_message st uid lang prompt now StreamOutcome.fail).store uid) =
      some s1.history ∧
    get_translation lang "error_processing" ∈
      (handle_text_message st uid lang prompt now StreamOutcome.fail).replies := by
  constructor
  · unfold handle_text_message text_core
    by_cases t1 : truthy s1.image_data <;> by_cases t2 : truthy s1.pdf_text <;>
      simp [h, t1, t2, store_set_self]
  · unfold handle_text_message text_core
    by_cases t1 : truthy s1.image_data <;> by_cases t2 : truthy s1.pdf_text <;>
      simp [h, t1, t2]

/-! ### Document and photo handlers preserve an existing session's
history and `last_seen` -/

theorem document_session_fields (st : Store) (uid : Nat) (lang mime : String)
    (file_size : Nat) (fetch : FetchResult) (now : Nat) (s : Session)
    (h : st uid = some s) :
    ∃ t, (handle_document_message st uid lang mime file_size fetch now).1 uid = some t ∧
      t.last_seen = s.last_seen ∧ t.history = s.history := by
  unfold handle_document_message
  by_cases hm : mime != "application/pdf"
  · exact ⟨s, by simp [hm, h], rfl, rfl⟩
  · by_cases hsz : file_size > MAX_PDF_SIZE
    · exact ⟨s, by simp [hm, hsz, h], rfl, rfl⟩
    · rcases fetch with payload | _
      · refine ⟨{ ((if (st uid).isNone then st.set uid (freshSession now) else st) uid).getD
            (freshSession now) with pdf_text := some payload, image_data := none },
          by simp [hm, hsz, store_set_self], ?_, ?_⟩ <;> simp [h]
      · exact ⟨s, by simp [hm, hsz, h], rfl, rfl⟩

theorem photo_session_fields (st : Store) (uid : Nat) (lang : String)
    (file_size : Nat) (fetch : FetchResult) (now : Nat) (s : Session)
    (h : st uid = some s) :
    ∃ t, (handle_photo_message st uid lang file_size fetch now).1 uid = some t ∧
      t.last_seen = s.last_seen ∧ t.history = s.history := by
  unfold handle_photo_message
  by_cases hsz : file_size > MAX_IMAGE_SIZE
  · exact ⟨s, by simp [hsz, h], rfl, rfl⟩
  · rcases fetch with payload | _
    · refine ⟨{ ((if (st uid).isNone then st.set uid (freshSession now) else st) uid).getD
          (freshSession now) with image_data := some payload, pdf_text := none },
        by simp [hsz, store_set_self], ?_, ?_⟩ <;> simp [h]
    · exact ⟨s, by simp [hsz, h], rfl, rfl⟩

/-! ### Further helper lemmas for the text handler -/

theorem text_message_last_seen (st : Store) (uid : Nat) (lang prompt : String)
    (now : Nat) (stream : StreamOutcome) :
    Option.map Session.last_seen
      ((handle_text_message st uid lang prompt now stream).store uid) = some now := by
  have hp := text_pre_last_seen st uid lang now
  rcases hu : (text_pre st uid lang now).1 uid with _ | s1
  · rw [hu] at hp
    cases hp
  · rw [hu] at hp
    simp only [Option.map_some, Option.map_some'] at hp
    have hnow : s1.last_seen = now := Option.some.inj hp
    unfold handle_text_message text_core
    by_cases t1 : truthy s1.image_data <;> by_cases t2 : truthy s1.pdf_text <;>
      rcases stream with c | _ <;> simp [hu, t1, t2, store_set_self, hnow]

theorem text_message_fail_pdf (st : Store) (uid : Nat) (lang prompt : String)
    (now : Nat) (s1 : Session)
    (h : (text_pre st uid lang now).1 uid = some s1) :
    Option.map Session.pdf_text
      ((handle_text_message st uid lang prompt now StreamOutcome.fail).store uid) =
      some s1.pdf_text := by
  unfold handle_text_message text_core
  by_cases t1 : truthy s1.image_data <;> by_cases t2 : truthy s1.pdf_text <;>
    simp [h, t1, t2, store_set_self]

theorem imageCount_str (s : String) : Content.imageCount (Content.str s) = 0 := rfl

theorem text_message_no_image_count (st : Store) (uid : Nat) (lang prompt : String)
    (now : Nat) (stream : StreamOutcome) (s : Session)
    (h : (text_pre st uid lang now).1 uid = some s)
    (himg : truthy s.image_data = false)
    (hh : imageCountList s.history = 0) :
    imageCountList (handle_text_message st uid lang prompt now stream).messages = 0 := by
  by_cases t2 : truthy s.pdf_text
  · rcases hp : s.pdf_text with _ | pdf
    · rw [hp] at t2
      simp [truthy] at t2
    · have hne : pdf ≠ "" := by
        rw [hp] at t2
        simpa [truthy] using t2
      have spec := text_message_pdf_spec st uid lang prompt now [] s pdf h himg hp hne
      rw [spec.1 stream]
      simp only [imageCountList] at hh ⊢
      simp [imageCount_str, hh]
  · have t2' : truthy s.pdf_text = false := by simpa using t2
    have spec := text_message_plain_spec st uid lang prompt now [] s h himg t2'
    rw [spec.1 stream]
    simp only [imageCountList] at hh ⊢
    simp [imageCount_str, hh]

/-! ### Claims -/

/-- C1 (counterexample): a user has a session with `last_seen = 5`; a
successfully ingested PDF document processed at time `999` leaves
`last_seen` at `5`, so document processing does not update the
last-activity timestamp of an existing session. -/
theorem c1_last_seen_counterexample :
    Option.map Session.last_seen
      ((handle_document_message
          (initStore.set 0
            { history := [], last_seen := 5, pdf_text := none, image_data := none })
          0 "en" "application/pdf" 5 (FetchResult.ok "T") 999).1 0) = some 5 ∧
      (5 : Nat) ≠ 999 :=
  ⟨by decide, by decide⟩

/-- C1 (amended): processing a text message always sets the session's
`last_seen` to the processing time, but document and photo processing
leave an existing session's `last_seen` unchanged (they set it only when
creating a missing session). -/
theorem c1_last_seen_amended (st : Store) (uid : Nat)
    (lang mime prompt : String) (file_size : Nat) (fetch : FetchResult)
    (now : Nat) (stream : StreamOutcome) (s : Session) :
    Option.map Session.last_seen
        ((handle_text_message st uid lang prompt now stream).store uid) = some now ∧
    (st uid = some s →
      Option.map Session.last_seen
        ((handle_document_message st uid lang mime file_size fetch now).1 uid) =
          some s.last_seen) ∧
    (st uid = some s →
      Option.map Session.last_seen
        ((handle_photo_message st uid lang file_size fetch now).1 uid) =
          some s.last_seen) := by
  refine ⟨text_message_last_seen st uid lang prompt now stream, fun h => ?_, fun h => ?_⟩
  · rcases document_session_fields st uid lang mime file_size fetch now s h with ⟨t, ht, hl, _⟩
    rw [ht]
    simp [hl]
  · rcases photo_session_fields st uid lang file_size fetch now s h with ⟨t, ht, hl, _⟩
    rw [ht]
    simp [hl]

/-- Witness for the amended C1 at a concrete store holding a session with
`last_seen = 50`, processed at time `100`. -/
theorem c1_last_seen_amended_witness :
    ((initStore.set 0
        { history := [], last_seen := 50, pdf_text := none, image_data := none }) 0 =
      some { history := [], last_seen := 50, pdf_text := none, image_data := none }) ∧
    Option.map Session.last_seen
        ((handle_text_message
            (initStore.set 0
              { history := [], last_seen := 50, pdf_text := none, image_data := none })
            0 "en" "hi" 100 (StreamOutcome.ok ["r"])).store 0) = some 100 ∧
    Option.map Session.last_seen
        ((handle_document_message
            (initStore.set 0
              { history := [], last_seen := 50, pdf_text := none, image_data := none })
            0 "en" "application/pdf" 5 (FetchResult.ok "T") 100).1 0) = some 50 ∧
    Option.map Session.last_seen
        ((handle_photo_message
            (initStore.set 0
              { history := [], last_seen := 50, pdf_text := none, image_data := none })
            0 "en" 5 (FetchResult.ok "T") 100).1 0) = some 50 := by
  have h := c1_last_seen_amended
    (initStore.set 0
      { history := [], last_seen := 50, pdf_text := none, image_data := none })
    0 "en" "application/pdf" "hi" 5 (FetchResult.ok "T") 100 (StreamOutcome.ok ["r"])
    { history := [], last_seen := 50, pdf_text := none, image_data := none }
  exact ⟨by decide, h.1, h.2.1 (by decide), h.2.2 (by decide)⟩

/-- C3: starting from the empty store, after any sequence of inbound
events every existing session holds at most one of the extracted PDF text
and the image payload: setting one always clears the other. -/
theorem c3_attachment_exclusive (ops : List Op) (uid : Nat) (s : Session)
    (h : run ops uid = some s) : s.pdf_text = none ∨ s.image_data = none :=
  run_inv ops uid s h

/-- Witness for C3: one successfully ingested PDF document. -/
theorem c3_attachment_exclusive_witness :
    (run [Op.document 0 "en" "application/pdf" 5 (FetchResult.ok "T") 100] 0 =
      some { history := [], last_seen := 100, pdf_text := some "T", image_data := none }) ∧
    (({ history := [], last_seen := 100, pdf_text := some "T",
        image_data := none } : Session).pdf_text = none ∨
      ({ history := [], last_seen := 100, pdf_text := some "T",
         image_data := none } : Session).image_data = none) :=
  ⟨by decide,
   c3_attachment_exclusive [Op.document 0 "en" "application/pdf" 5 (FetchResult.ok "T") 100]
     0 _ (by decide)⟩

/-- C4: whatever session the user ends up with after `/reset` is empty
(no history, no PDF text, no image payload), and the localized reset
confirmation is sent. -/
theorem c4_reset_clears (st : Store) (uid : Nat) (lang : String) (now : Nat)
    (s : Session) (h : (reset_command st uid lang now).1 uid = some s) :
    s.history = [] ∧ s.pdf_text = none ∧ s.image_data = none ∧
      (reset_command st uid lang now).2 = [get_translation lang "reset"] := by
  have hst : (reset_command st uid lang now).1 =
      (if (st uid).isSome then st.set uid (freshSession now) else st) := rfl
  rw [hst] at h
  by_cases hh : (st uid).isSome
  · rw [if_pos hh, store_set_self] at h
    have h2 := Option.some.inj h
    rw [← h2]
    exact ⟨rfl, rfl, rfl, rfl⟩
  · rw [if_neg hh] at h
    rw [Option.not_isSome_iff_eq_none] at hh
    rw [hh] at h
    exact Option.noConfusion h

/-- Witness for C4 at a store whose session holds history and both kinds
of junk attachment state. -/
theorem c4_reset_clears_witness :
    ((reset_command
        (initStore.set 0
          { history := [{ role := "user", content := Content.str "hi" }],
            last_seen := 3, pdf_text := some "P", image_data := some "I" })
        0 "en" 7).1 0 = some (freshSession 7)) ∧
    ((freshSession 7).history = [] ∧ (freshSession 7).pdf_text = none ∧
      (freshSession 7).image_data = none ∧
      (reset_command
        (initStore.set 0
          { history := [{ role := "user", content := Content.str "hi" }],
            last_seen := 3, pdf_text := some "P", image_data := some "I" })
        0 "en" 7).2 = [get_translation "en" "reset"]) :=
  ⟨by decide,
   c4_reset_clears
     (initStore.set 0
       { history := [{ role := "user", content := Content.str "hi" }],
         last_seen := 3, pdf_text := some "P", image_data := some "I" })
     0 "en" 7 (freshSession 7) (by decide)⟩

/-- C6: a document whose MIME type is not `application/pdf` is rejected
with the unsupported-file notice and the store is unchanged; a PDF
declared larger than 15 MB is rejected with the too-large notice and the
store is unchanged; a decoding failure sends the generic error notice and
also leaves the store (hence any pending attachment) unchanged. -/
theorem c6_document_rejections (st : Store) (uid : Nat) (lang mime : String)
    (file_size : Nat) (fetch : FetchResult) (now : Nat) :
    (mime ≠ "application/pdf" →
      handle_document_message st uid lang mime file_size fetch now =
        (st, [get_translation lang "unsupported_file"])) ∧
    (mime = "application/pdf" → file_size > MAX_PDF_SIZE →
      handle_document_message st uid lang mime file_size fetch now =
        (st, [get_translation lang "pdf_too_large"])) ∧
    (mime = "application/pdf" → ¬ file_size > MAX_PDF_SIZE →
      fetch = FetchResult.fail →
      handle_document_message st uid lang mime file_size fetch now =
        (st, [get_translation lang "error_processing"])) := by
  refine ⟨fun h1 => ?_, fun h1 h2 => ?_, fun h1 h2 h3 => ?_⟩
  · unfold handle_document_message
    simp [h1]
  · subst h1
    unfold handle_document_message
    simp [h2]
  · subst h1
    subst h3
    unfold handle_document_message
    simp [h2]

/-- Witness for C6: a non-PDF document, a 16 MB PDF, and a PDF whose
decoding fails. -/
theorem c6_document_rejections_witness :
    ("text/plain" ≠ "application/pdf" ∧
      handle_document_message initStore 0 "en" "text/plain" 5 (FetchResult.ok "x") 0 =
        (initStore, [get_translation "en" "unsupported_file"])) ∧
    (16 * 1024 * 1024 > MAX_PDF_SIZE ∧
      handle_document_message initStore 0 "en" "application/pdf"
          (16 * 1024 * 1024) (FetchResult.ok "x") 0 =
        (initStore, [get_translation "en" "pdf_too_large"])) ∧
    (¬ (5 : Nat) > MAX_PDF_SIZE ∧
      handle_document_message initStore 0 "en" "application/pdf" 5 FetchResult.fail 0 =
        (initStore, [get_translation "en" "error_processing"])) :=
  ⟨⟨by decide,
    (c6_document_rejections initStore 0 "en" "text/plain" 5 (FetchResult.ok "x") 0).1
      (by decide)⟩,
   ⟨by decide,
    (c6_document_rejections initStore 0 "en" "application/pdf"
        (16 * 1024 * 1024) (FetchResult.ok "x") 0).2.1 rfl (by decide)⟩,
   ⟨by decide,
    (c6_document_rejections initStore 0 "en" "application/pdf" 5 FetchResult.fail 0).2.2
      rfl (by decide) rfl⟩⟩

/-- C10: for every language code and key the translation lookup falls
back to the English table (the only entry), and a key absent from the
table yields the empty string. -/
theorem c10_translation_fallback (lang key : String) :
    get_translation lang key = (en_table.lookup key).getD "" ∧
      (en_table.lookup key = none → get_translation lang key = "") := by
  have h1 : get_translation lang key = (en_table.lookup key).getD "" := by
    unfold get_translation translations
    cases h : (lang == "en") <;> simp [List.lookup, h]
  exact ⟨h1, fun h2 => by simp [h1, h2]⟩

/-- Witness for C10 at `lang = "de"` and the absent key
`"no_such_key"`. -/
theorem c10_translation_fallback_witness :
    en_table.lookup "no_such_key" = none ∧
      get_translation "de" "no_such_key" = "" :=
  ⟨by decide, (c10_translation_fallback "de" "no_such_key").2 (by decide)⟩

/-- C2: relative to the session state `s1` at the start of the turn
proper (after the idle-reset / lazy-creation preamble), a successful
stream appends exactly the `user` entry with the new text followed by the
`assistant` entry with the concatenated streamed reply; a failed stream
leaves `history` exactly as it was and sends the generic failure
notice. -/
theorem c2_turn_history (st : Store) (uid : Nat) (lang prompt : String)
    (now : Nat) (chunks : List String) (s1 : Session)
    (h : (text_pre st uid lang now).1 uid = some s1) :
    Option.map Session.history
      ((handle_text_message st uid lang prompt now (StreamOutcome.ok chunks)).store uid) =
      some (s1.history ++
        [{ role := "user", content := Content.str prompt },
         { role := "assistant", content := Content.str (String.join chunks) }]) ∧
    Option.map Session.history
      ((handle_text_message st uid lang prompt now StreamOutcome.fail).store uid) =
      some s1.history ∧
    get_translation lang "error_processing" ∈
      (handle_text_message st uid lang prompt now StreamOutcome.fail).replies :=
  ⟨text_message_history_ok st uid lang prompt now chunks s1 h,
   (text_message_history_fail st uid lang prompt now s1 h).1,
   (text_message_history_fail st uid lang prompt now s1 h).2⟩

/-- Witness for C2: a fresh live session, one turn with prompt `"q"` and
streamed reply `"Hello"`. -/
theorem c2_turn_history_witness :
    ((text_pre (initStore.set 0 (freshSession 50)) 0 "en" 100).1 0 =
      some (freshSession 100)) ∧
    (Option.map Session.history
        ((handle_text_message (initStore.set 0 (freshSession 50)) 0 "en" "q" 100
            (StreamOutcome.ok ["Hello"])).store 0) =
      some ((freshSession 100).history ++
        [{ role := "user", content := Content.str "q" },
         { role := "assistant", content := Content.str (String.join ["Hello"]) }]) ∧
     Option.map Session.history
        ((handle_text_message (initStore.set 0 (freshSession 50)) 0 "en" "q" 100
            StreamOutcome.fail).store 0) =
      some (freshSession 100).history ∧
     get_translation "en" "error_processing" ∈
      (handle_text_message (initStore.set 0 (freshSession 50)) 0 "en" "q" 100
          StreamOutcome.fail).replies) :=
  ⟨by decide,
   c2_turn_history (initStore.set 0 (freshSession 50)) 0 "en" "q" 100 ["Hello"]
     (freshSession 100) (by decide)⟩

/-- C5: a text message arriving strictly more than the idle threshold
after `last_seen` first performs the same replacement as `/reset`, so the
assembled prompt contains no history at all (just the fixed system
instruction and the new user text); document and photo handling perform
no such check — they preserve an existing session's history no matter how
stale it is. -/
theorem c5_idle_reset (st : Store) (uid : Nat) (lang mime prompt : String)
    (file_size : Nat) (fetch : FetchResult) (now : Nat) (stream : StreamOutcome)
    (s : Session) (h : st uid = some s)
    (hs : now - s.last_seen > CONTEXT_TIMEOUT_SECONDS) :
    (handle_text_message st uid lang prompt now stream).messages =
      [{ role := "system", content := Content.str "You are a helpful assistant." },
       { role := "user", content := Content.str prompt }] ∧
    (text_pre st uid lang now).1 uid = some (freshSession now) ∧
    Option.map Session.history
      ((handle_document_message st uid lang mime file_size fetch now).1 uid) =
        some s.history ∧
    Option.map Session.history
      ((handle_photo_message st uid lang file_size fetch now).1 uid) =
        some s.history := by
  have hpre : (text_pre st uid lang now).1 uid = some (freshSession now) := by
    rw [text_pre_eq_stale st uid lang now s h hs]
    exact store_set_self _ _ _
  refine ⟨?_, hpre, ?_, ?_⟩
  · have hplain := text_message_plain_spec st uid lang prompt now [] (freshSession now)
      hpre (by simp [truthy, freshSession]) (by simp [truthy, freshSession])
    simpa [freshSession] using hplain.1 stream
  · rcases document_session_fields st uid lang mime file_size fetch now s h with ⟨t, ht, _, hh⟩
    rw [ht]
    simp [hh]
  · rcases photo_session_fields st uid lang file_size fetch now s h with ⟨t, ht, _, hh⟩
    rw [ht]
    simp [hh]

/-- Witness for C5: a session last seen at time `0`, with a text message,
a document and a photo all processed at time `601`. -/
theorem c5_idle_reset_witness :
    ((initStore.set 0
        { history := [{ role := "user", content := Content.str "old" }],
          last_seen := 0, pdf_text := none, image_data := none }) 0 =
      some { history := [{ role := "user", content := Content.str "old" }],
             last_seen := 0, pdf_text := none, image_data := none }) ∧
    ((601 : Nat) - 0 > CONTEXT_TIMEOUT_SECONDS) ∧
    ((handle_text_message
        (initStore.set 0
          { history := [{ role := "user", content := Content.str "old" }],
            last_seen := 0, pdf_text := none, image_data := none })
        0 "en" "q" 601 (StreamOutcome.ok ["r"])).messages =
      [{ role := "system", content := Content.str "You are a helpful assistant." },
       { role := "user", content := Content.str "q" }] ∧
     (text_pre
        (initStore.set 0
          { history := [{ role := "user", content := Content.str "old" }],
            last_seen := 0, pdf_text := none, image_data := none })
        0 "en" 601).1 0 = some (freshSession 601) ∧
     Option.map Session.history
      ((handle_document_message
          (initStore.set 0
            { history := [{ role := "user", content := Content.str "old" }],
              last_seen := 0, pdf_text := none, image_data := none })
          0 "en" "application/pdf" 5 (FetchResult.ok "T") 601).1 0) =
        some [{ role := "user", content := Content.str "old" }] ∧
     Option.map Session.history
      ((handle_photo_message
          (initStore.set 0
            { history := [{ role := "user", content := Content.str "old" }],
              last_seen := 0, pdf_text := none, image_data := none })
          0 "en" 5 (FetchResult.ok "T") 601).1 0) =
        some [{ role := "user", content := Content.str "old" }]) :=
  ⟨by decide, by decide,
   c5_idle_reset
     (initStore.set 0
       { history := [{ role := "user", content := Content.str "old" }],
         last_seen := 0, pdf_text := none, image_data := none })
     0 "en" "application/pdf" "q" 5 (FetchResult.ok "T") 601 (StreamOutcome.ok ["r"])
     { history := [{ role := "user", content := Content.str "old" }],
       last_seen := 0, pdf_text := none, image_data := none }
     (by decide) (by decide)⟩

theorem imageCount_two_parts (t u : String) :
    Content.imageCount
      (Content.parts [ContentPart.textPart t, ContentPart.imageUrlPart u]) = 1 := rfl

/-- C7: with a pending extracted document text longer than 4000
characters (and no pending image), a successful text turn embeds exactly
the first 4000 characters of that text in a system-role context message
(nothing more, no truncation marker), the document is not cleared by use,
and the next text turn embeds the very same slice again. -/
theorem c7_pdf_truncation (st : Store) (uid : Nat) (lang prompt prompt2 : String)
    (now now2 : Nat) (chunks chunks2 : List String) (s : Session) (pdf : String)
    (h : st uid = some s) (himg : s.image_data = none) (hpdf : s.pdf_text = some pdf)
    (hlen : 4000 < pdf.data.length)
    (hidle : ¬ now - s.last_seen > CONTEXT_TIMEOUT_SECONDS)
    (hidle2 : ¬ now2 - now > CONTEXT_TIMEOUT_SECONDS) :
    (strTake pdf 4000).data.length = 4000 ∧
    (handle_text_message st uid lang prompt now (StreamOutcome.ok chunks)).messages =
      ({ role := "system", content := Content.str "You are a helpful assistant." }
          :: s.history) ++
        [{ role := "system", content := Content.str
            ("Use the following content from a PDF to answer: " ++ strTake pdf 4000) },
         { role := "user", content := Content.str prompt }] ∧
    Option.map Session.pdf_text
      ((handle_text_message st uid lang prompt now (StreamOutcome.ok chunks)).store uid) =
      some (some pdf) ∧
    { role := "system", content := Content.str
        ("Use the following content from a PDF to answer: " ++ strTake pdf 4000) } ∈
      (handle_text_message
        (handle_text_message st uid lang prompt now (StreamOutcome.ok chunks)).store
        uid lang prompt2 now2 (StreamOutcome.ok chunks2)).messages := by
  have hne : pdf ≠ "" := by
    intro e
    rw [e] at hlen
    have h0 : ("" : String).data.length = 0 := rfl
    omega
  have hs1 : (text_pre st uid lang now).1 uid = some { s with last_seen := now } := by
    rw [text_pre_eq_live st uid lang now s h hidle]
    exact store_set_self _ _ _
  have spec1 := text_message_pdf_spec st uid lang prompt now chunks
    { s with last_seen := now } pdf hs1 (by simp [truthy, himg]) (by simp [hpdf]) hne
  refine ⟨?_, ?_, ?_, ?_⟩
  · show (pdf.data.take 4000).length = 4000
    rw [List.length_take]
    omega
  · simpa using spec1.1 (StreamOutcome.ok chunks)
  · rw [spec1.2.1]
    simp [hpdf]
  · have hstore := spec1.2.1
    have hpre2 := text_pre_eq_live
      ((handle_text_message st uid lang prompt now (StreamOutcome.ok chunks)).store)
      uid lang now2 _ hstore hidle2
    have hs2 : (text_pre
        ((handle_text_message st uid lang prompt now (StreamOutcome.ok chunks)).store)
        uid lang now2).1 uid =
        some { s with last_seen := now2,
                      history := s.history ++
                        [{ role := "user", content := Content.str prompt },
                         { role := "assistant",
                           content := Content.str (String.join chunks) }] } := by
      rw [hpre2]
      exact store_set_self _ _ _
    have spec2 := text_message_pdf_spec
      ((handle_text_message st uid lang prompt now (StreamOutcome.ok chunks)).store)
      uid lang prompt2 now2 chunks2 _ pdf hs2 (by simp [truthy, himg]) (by simp [hpdf]) hne
    rw [spec2.1 (StreamOutcome.ok chunks2)]
    simp

/-- Witness for C7: a 6000-character extracted text, two consecutive
questions at times 100 and 200. -/
theorem c7_pdf_truncation_witness :
    ((initStore.set 0
        { history := [], last_seen := 100,
          pdf_text := some (String.mk (List.replicate 6000 'A')),
          image_data := none }) 0 =
      some { history := [], last_seen := 100,
             pdf_text := some (String.mk (List.replicate 6000 'A')),
             image_data := none }) ∧
    (4000 < (String.mk (List.replicate 6000 'A')).data.length) ∧
    ((strTake (String.mk (List.replicate 6000 'A')) 4000).data.length = 4000 ∧
     (handle_text_message
        (initStore.set 0
          { history := [], last_seen := 100,
            pdf_text := some (String.mk (List.replicate 6000 'A')),
            image_data := none })
        0 "en" "q1" 100 (StreamOutcome.ok ["r1"])).messages =
      ([{ role := "system", content := Content.str "You are a helpful assistant." }]
          ) ++
        [{ role := "system", content := Content.str
            ("Use the following content from a PDF to answer: " ++
              strTake (String.mk (List.replicate 6000 'A')) 4000) },
         { role := "user", content := Content.str "q1" }] ∧
     Option.map Session.pdf_text
      ((handle_text_message
          (initStore.set 0
            { history := [], last_seen := 100,
              pdf_text := some (String.mk (List.replicate 6000 'A')),
              image_data := none })
          0 "en" "q1" 100 (StreamOutcome.ok ["r1"])).store 0) =
      some (some (String.mk (List.replicate 6000 'A'))) ∧
     { role := "system", content := Content.str
        ("Use the following content from a PDF to answer: " ++
          strTake (String.mk (List.replicate 6000 'A')) 4000) } ∈
      (handle_text_message
        (handle_text_message
          (initStore.set 0
            { history := [], last_seen := 100,
              pdf_text := some (String.mk (List.replicate 6000 'A')),
              image_data := none })
          0 "en" "q1" 100 (StreamOutcome.ok ["r1"])).store
        0 "en" "q2" 200 (StreamOutcome.ok ["r2"])).messages) :=
  ⟨rfl,
   (by
     show (4000 : Nat) < (List.replicate 6000 'A').length
     rw [List.length_replicate]
     omega),
   c7_pdf_truncation
     (initStore.set 0
       { history := [], last_seen := 100,
         pdf_text := some (String.mk (List.replicate 6000 'A')),
         image_data := none })
     0 "en" "q1" "q2" 100 200 ["r1"] ["r2"]
     { history := [], last_seen := 100,
       pdf_text := some (String.mk (List.replicate 6000 'A')), image_data := none }
     (String.mk (List.replicate 6000 'A'))
     rfl rfl rfl
     (by
       show (4000 : Nat) < (List.replicate 6000 'A').length
       rw [List.length_replicate]
       omega)
     (by decide) (by decide)⟩

/-- C8: with a pending image (and a history containing no inline images),
the next text turn embeds the image exactly once — the image branch takes
priority over any pending document text — the attachment is consumed by
that turn, and the following text turn's prompt contains no image at
all. -/
theorem c8_image_single_use (st : Store) (uid : Nat) (lang prompt prompt2 : String)
    (now now2 : Nat) (chunks chunks2 : List String) (s : Session) (img : String)
    (h : st uid = some s) (himg : s.image_data = some img) (hne : img ≠ "")
    (hh : imageCountList s.history = 0)
    (hidle : ¬ now - s.last_seen > CONTEXT_TIMEOUT_SECONDS)
    (hidle2 : ¬ now2 - now > CONTEXT_TIMEOUT_SECONDS) :
    (handle_text_message st uid lang prompt now (StreamOutcome.ok chunks)).messages =
      ({ role := "system", content := Content.str "You are a helpful assistant." }
          :: s.history) ++
        [{ role := "user", content := Content.parts
            [ContentPart.textPart prompt,
             ContentPart.imageUrlPart ("data:image/jpeg;base64," ++ img)] }] ∧
    imageCountList
      (handle_text_message st uid lang prompt now (StreamOutcome.ok chunks)).messages = 1 ∧
    Option.map Session.image_data
      ((handle_text_message st uid lang prompt now (StreamOutcome.ok chunks)).store uid) =
      some none ∧
    imageCountList
      (handle_text_message
        (handle_text_message st uid lang prompt now (StreamOutcome.ok chunks)).store
        uid lang prompt2 now2 (StreamOutcome.ok chunks2)).messages = 0 := by
  have hs1 : (text_pre st uid lang now).1 uid = some { s with last_seen := now } := by
    rw [text_pre_eq_live st uid lang now s h hidle]
    exact store_set_self _ _ _
  have spec1 := text_message_image_spec st uid lang prompt now chunks
    { s with last_seen := now } img hs1 (by simp [himg]) hne
  refine ⟨?_, ?_, ?_, ?_⟩
  · simpa using spec1.1 (StreamOutcome.ok chunks)
  · rw [spec1.1 (StreamOutcome.ok chunks)]
    simp only [imageCountList] at hh ⊢
    simp [imageCount_str, imageCount_two_parts, hh]
  · rw [spec1.2.1]
    simp
  · have hstore := spec1.2.1
    have hpre2 := text_pre_eq_live
      ((handle_text_message st uid lang prompt now (StreamOutcome.ok chunks)).store)
      uid lang now2 _ hstore hidle2
    have hs2 : (text_pre
        ((handle_text_message st uid lang prompt now (StreamOutcome.ok chunks)).store)
        uid lang now2).1 uid =
        some { s with last_seen := now2,
                      image_data := none,
                      history := s.history ++
                        [{ role := "user", content := Content.str prompt },
                         { role := "assistant",
                           content := Content.str (String.join chunks) }] } := by
      rw [hpre2]
      exact store_set_self _ _ _
    refine text_message_no_image_count _ uid lang prompt2 now2
      (StreamOutcome.ok chunks2) _ hs2 ?_ ?_
    · simp [truthy]
    · simp only [imageCountList] at hh ⊢
      simp [imageCount_str, hh]

/-- Witness for C8: an accepted image followed by the text
`"what is this?"` at time 100, then a plain question at time 160. -/
theorem c8_image_single_use_witness :
    ((initStore.set 0
        { history := [], last_seen := 100, pdf_text := none,
          image_data := some "IMG" }) 0 =
      some { history := [], last_seen := 100, pdf_text := none,
             image_data := some "IMG" }) ∧
    ("IMG" ≠ "") ∧
    (imageCountList ([] : List ChatMessage) = 0) ∧
    ((handle_text_message
        (initStore.set 0
          { history := [], last_seen := 100, pdf_text := none,
            image_data := some "IMG" })
        0 "en" "what is this?" 100 (StreamOutcome.ok ["r1"])).messages =
      ([{ role := "system", content := Content.str "You are a helpful assistant." }]) ++
        [{ role := "user", content := Content.parts
            [ContentPart.textPart "what is this?",
             ContentPart.imageUrlPart ("data:image/jpeg;base64," ++ "IMG")] }] ∧
     imageCountList
      (handle_text_message
        (initStore.set 0
          { history := [], last_seen := 100, pdf_text := none,
            image_data := some "IMG" })
        0 "en" "what is this?" 100 (StreamOutcome.ok ["r1"])).messages = 1 ∧
     Option.map Session.image_data
      ((handle_text_message
          (initStore.set 0
            { history := [], last_seen := 100, pdf_text := none,
              image_data := some "IMG" })
          0 "en" "what is this?" 100 (StreamOutcome.ok ["r1"])).store 0) =
      some none ∧
     imageCountList
      (handle_text_message
        (handle_text_message
          (initStore.set 0
            { history := [], last_seen := 100, pdf_text := none,
              image_data := some "IMG" })
          0 "en" "what is this?" 100 (StreamOutcome.ok ["r1"])).store
        0 "en" "next" 160 (StreamOutcome.ok ["r2"])).messages = 0) :=
  ⟨rfl, by decide, by decide,
   c8_image_single_use
     (initStore.set 0
       { history := [], last_seen := 100, pdf_text := none,
         image_data := some "IMG" })
     0 "en" "what is this?" "next" 100 160 ["r1"] ["r2"]
     { history := [], last_seen := 100, pdf_text := none, image_data := some "IMG" }
     "IMG" rfl rfl (by decide) (by decide) (by decide) (by decide)⟩

/-- C9: the image attachment is cleared before the completion request is
submitted, so a turn that fails loses the image while leaving history
unchanged; a pending document text instead survives a failed turn
unchanged. -/
theorem c9_failed_turn_attachments (stA stB : Store) (uid : Nat)
    (lang prompt : String) (now : Nat) (sA sB : Session) (img pdf : String)
    (hA : stA uid = some sA) (hAimg : sA.image_data = some img) (hne : img ≠ "")
    (hAidle : ¬ now - sA.last_seen > CONTEXT_TIMEOUT_SECONDS)
    (hB : stB uid = some sB) (_hBimg : sB.image_data = none)
    (hBpdf : sB.pdf_text = some pdf)
    (hBidle : ¬ now - sB.last_seen > CONTEXT_TIMEOUT_SECONDS) :
    Option.map Session.image_data
      ((handle_text_message stA uid lang prompt now StreamOutcome.fail).store uid) =
      some none ∧
    Option.map Session.history
      ((handle_text_message stA uid lang prompt now StreamOutcome.fail).store uid) =
      some sA.history ∧
    Option.map Session.pdf_text
      ((handle_text_message stB uid lang prompt now StreamOutcome.fail).store uid) =
      some (some pdf) ∧
    Option.map Session.history
      ((handle_text_message stB uid lang prompt now StreamOutcome.fail).store uid) =
      some sB.history := by
  have hsA : (text_pre stA uid lang now).1 uid = some { sA with last_seen := now } := by
    rw [text_pre_eq_live stA uid lang now sA hA hAidle]
    exact store_set_self _ _ _
  have specA := text_message_image_spec stA uid lang prompt now []
    { sA with last_seen := now } img hsA (by simp [hAimg]) hne
  have hsB : (text_pre stB uid lang now).1 uid = some { sB with last_seen := now } := by
    rw [text_pre_eq_live stB uid lang now sB hB hBidle]
    exact store_set_self _ _ _
  refine ⟨?_, ?_, ?_, ?_⟩
  · rw [specA.2.2]
    simp
  · rw [specA.2.2]
    simp
  · have hp := text_message_fail_pdf stB uid lang prompt now _ hsB
    rw [hp]
    simp [hBpdf]
  · have hh := (text_message_history_fail stB uid lang prompt now _ hsB).1
    rw [hh]

/-- Witness for C9: a failed turn with a pending image, and a failed turn
with a pending document text, both at time 100. -/
theorem c9_failed_turn_attachments_witness :
    ((initStore.set 0
        { history := [], last_seen := 100, pdf_text := none,
          image_data := some "IMG" }) 0 =
      some { history := [], last_seen := 100, pdf_text := none,
             image_data := some "IMG" }) ∧
    ((initStore.set 0
        { history := [], last_seen := 100, pdf_text := some "PDF",
          image_data := none }) 0 =
      some { history := [], last_seen := 100, pdf_text := some "PDF",
             image_data := none }) ∧
    (Option.map Session.image_data
      ((handle_text_message
          (initStore.set 0
            { history := [], last_seen := 100, pdf_text := none,
              image_data := some "IMG" })
          0 "en" "q" 100 StreamOutcome.fail).store 0) = some none ∧
     Option.map Session.history
      ((handle_text_message
          (initStore.set 0
            { history := [], last_seen := 100, pdf_text := none,
              image_data := some "IMG" })
          0 "en" "q" 100 StreamOutcome.fail).store 0) = some [] ∧
     Option.map Session.pdf_text
      ((handle_text_message
          (initStore.set 0
            { history := [], last_seen := 100, pdf_text := some "PDF",
              image_data := none })
          0 "en" "q" 100 StreamOutcome.fail).store 0) = some (some "PDF") ∧
     Option.map Session.history
      ((handle_text_message
          (initStore.set 0
            { history := [], last_seen := 100, pdf_text := some "PDF",
              image_data := none })
          0 "en" "q" 100 StreamOutcome.fail).store 0) = some []) :=
  ⟨rfl, rfl,
   c9_failed_turn_attachments
     (initStore.set 0
       { history := [], last_seen := 100, pdf_text := none,
         image_data := some "IMG" })
     (initStore.set 0
       { history := [], last_seen := 100, pdf_text := some "PDF",
         image_data := none })
     0 "en" "q" 100
     { history := [], last_seen := 100, pdf_text := none, image_data := some "IMG" }
     { history := [], last_seen := 100, pdf_text := some "PDF", image_data := none }
     "IMG" "PDF" rfl rfl (by decide) (by decide) rfl rfl rfl (by decide)⟩

end TelegramBot
